import Mathlib

/-!
# Verification of the simple-stream ingestion client

Shallow embedding of the authenticated streaming-ingestion client of the
`simple-stream` repository: the JWT authentication helper
(`src/python/simulator/auth.py`), the data-quality validator
(`src/python/shared/validation.py`), the Snowpipe streaming REST client
(`src/python/simulator/rest_client.py`), the driver loop
(`src/python/simulator/simulator.py`), and the `http_delete` helper of
`src/examples/send_events_stream.py`.

Conventions of the embedding:
* instants are integers counting microseconds since the epoch, UTC — the
  exact resolution of Python `datetime`/`timedelta` arithmetic;
* floating-point quantities that are only ever compared, never combined
  (signal strengths, the batch interval), are rationals;
* HTTP traffic is an oracle: every operation takes the response the server
  would give and returns the mutated client state, the list of network calls
  it performed, and either a result or the raised exception;
* Python's truthiness test on an optional string (`if not self.x`) is
  `pyFalsy` below: `None` and the empty string are falsy;
* `str.strip` and `str.upper` are modelled on the character list of the
  string (`pyStrip`, `pyUpper`).
-/

set_option autoImplicit false

namespace SimpleStream

/-- Python `str.strip()`: drop whitespace from both ends. -/
def pyStrip (s : String) : String :=
  ⟨(((s.data.dropWhile Char.isWhitespace).reverse.dropWhile Char.isWhitespace).reverse)⟩

/-- Python `str.upper()` (ASCII case mapping). -/
def pyUpper (s : String) : String :=
  ⟨s.data.map Char.toUpper⟩

/-- Truthiness of an optional Python string: `None` and `""` are falsy. -/
def pyFalsy : Option String → Bool
  | none => true
  | some s => s.data.isEmpty

/-- Microseconds in one second. -/
def usPerSecond : ℤ := 1000000

/-- Microseconds in one minute. -/
def usPerMinute : ℤ := 60000000

/-- Microseconds in one hour. -/
def usPerHour : ℤ := 3600000000

/-- Microseconds in thirty days. -/
def usPer30Days : ℤ := 2592000000000

/-! ## Data model (`src/python/shared/models.py`)

`BadgeEvent` as the validator sees it: identifier strings, a timestamp
(integer microseconds), an optional signal strength and an optional
direction. -/

structure BadgeEvent where
  badge_id : String
  user_id : String
  zone_id : String
  reader_id : String
  event_timestamp : ℤ
  signal_strength : Option ℚ
  direction : Option String
  deriving Repr, DecidableEq

/-- `ChannelOpenResponse` (pydantic): both fields are required; constructing
it from a body that misses one raises a validation error. -/
structure ChannelOpenResponse where
  next_continuation_token : String
  channel_status : List (String × String)
  deriving Repr, DecidableEq

/-! ## Validator (`src/python/shared/validation.py`) -/

/-- `_validate_required_fields`: each identifier must be non-empty and not
whitespace-only (`if not event.x or not event.x.strip()`).  The final
`if not event.event_timestamp` branch can never fire: `event_timestamp` is a
required `datetime` field and `datetime` objects are always truthy. -/
def required_errors (e : BadgeEvent) : List String :=
  (if (pyStrip e.badge_id).data.isEmpty then ["badge_id is required and cannot be empty"] else []) ++
  (if (pyStrip e.user_id).data.isEmpty then ["user_id is required and cannot be empty"] else []) ++
  (if (pyStrip e.zone_id).data.isEmpty then ["zone_id is required and cannot be empty"] else []) ++
  (if (pyStrip e.reader_id).data.isEmpty then ["reader_id is required and cannot be empty"] else [])

/-- `_validate_timestamp`: returns `(errors, warnings)` given the current
clock `now` (microseconds). -/
def timestamp_checks (now : ℤ) (e : BadgeEvent) : List String × List String :=
  ((if e.event_timestamp > now then
      ["Event timestamp " ++ toString e.event_timestamp ++ " is in the future"]
    else []),
   (if e.event_timestamp < now - usPer30Days then
      ["Event timestamp " ++ toString e.event_timestamp ++ " is more than 30 days old"]
    else []) ++
   (if e.event_timestamp < now - usPerSecond ∧ now - e.event_timestamp > usPerHour then
      ["Event is more than an hour old"]
    else []))

/-- `_validate_signal_strength`: returns `(errors, warnings)`. -/
def signal_checks (e : BadgeEvent) : List String × List String :=
  match e.signal_strength with
  | none => ([], [])
  | some ss =>
    ((if ss > 0 then
        ["Signal strength " ++ toString ss ++ " dBm " ++ "cannot be positive"]
      else []) ++
     (if ss < -100 then
        ["Signal strength " ++ toString ss ++ " dBm is too weak (< -100 dBm)"]
      else []),
     if ss < -80 then ["Weak signal strength: " ++ toString ss ++ " dBm"] else [])

/-- `_validate_identifiers`: non-empty identifiers longer than 50 characters
are errors. -/
def identifier_errors (e : BadgeEvent) : List String :=
  (if ¬e.badge_id.isEmpty ∧ e.badge_id.length > 50 then
     ["badge_id exceeds maximum length of 50"] else []) ++
  (if ¬e.user_id.isEmpty ∧ e.user_id.length > 50 then
     ["user_id exceeds maximum length of 50"] else []) ++
  (if ¬e.zone_id.isEmpty ∧ e.zone_id.length > 50 then
     ["zone_id exceeds maximum length of 50"] else []) ++
  (if ¬e.reader_id.isEmpty ∧ e.reader_id.length > 50 then
     ["reader_id exceeds maximum length of 50"] else [])

/-- `DataQualityValidator.validate_event`: runs the four checks in order,
collecting errors then warnings; the event is valid when there are no errors
and, in strict mode, no warnings.  Returns `(is_valid, errors ++ warnings)`. -/
def validate_event (strict_mode : Bool) (now : ℤ) (e : BadgeEvent) : Bool × List String :=
  let errs := required_errors e ++ (timestamp_checks now e).1 ++
              (signal_checks e).1 ++ identifier_errors e
  let warns := (timestamp_checks now e).2 ++ (signal_checks e).2
  (errs.isEmpty && (!strict_mode || warns.isEmpty), errs ++ warns)

/-- A rejected entry of `validate_batch`: the event together with its
error/warning messages (`{"event": ..., "reasons": messages}`). -/
structure RejectedEvent where
  event : BadgeEvent
  reasons : List String
  deriving Repr, DecidableEq

/-- `validate_batch`: splits a batch into valid events and rejected entries,
preserving order. -/
def validate_batch (strict_mode : Bool) (now : ℤ) :
    List BadgeEvent → List BadgeEvent × List RejectedEvent
  | [] => ([], [])
  | e :: rest =>
    let r := validate_event strict_mode now e
    let tail := validate_batch strict_mode now rest
    if r.1 then (e :: tail.1, tail.2) else (tail.1, ⟨e, r.2⟩ :: tail.2)

/-! ## Authentication (`src/python/simulator/auth.py`)

The private key and the RS256 signature are cryptographic material outside
the embedding; what the claims are about is the *payload* of the token
(`iss`, `sub`, `iat`, `exp`) and when issuance fails. -/

/-- The claims of a generated JWT.  Instants are integer microseconds. -/
structure JwtPayload where
  iss : String
  sub : String
  iat : ℤ
  exp : ℤ
  deriving Repr, DecidableEq

/-- The fields of `SnowflakeAuth` that `generate_jwt_token` reads. -/
structure SnowflakeAuth where
  account : String
  user : String
  public_key_fingerprint : String
  deriving Repr, DecidableEq

/-- `SnowflakeAuth.generate_jwt_token`: rejects expirations above 60 minutes
with a `ValueError`, otherwise signs a payload with
`sub = "{account}.{user}".upper()`, `iss = sub + "." + fingerprint`,
`iat = now` and `exp = now + expiration_minutes` minutes. -/
def generate_jwt_token (a : SnowflakeAuth) (now : ℤ) (expiration_minutes : ℤ) :
    Except String JwtPayload :=
  if expiration_minutes > 60 then
    .error "JWT token expiration cannot exceed 60 minutes"
  else
    let qualified_username := pyUpper (a.account ++ "." ++ a.user)
    .ok { iss := qualified_username ++ "." ++ a.public_key_fingerprint,
          sub := qualified_username,
          iat := now,
          exp := now + expiration_minutes * usPerMinute }

/-- `SnowflakeAuth.get_auth_header`: generates a fresh token (default
expiration 59 minutes) on every call and wraps it in a bearer header.  No
token is ever cached on the instance. -/
def get_auth_header (a : SnowflakeAuth) (now : ℤ) : Except String JwtPayload :=
  generate_jwt_token a now 59

/-! ## REST client (`src/python/simulator/rest_client.py`)

`SnowpipeStreamingClient` is modelled as the record of its mutable fields.
Each method takes the HTTP responses it would receive as arguments and
returns `(new state, network calls made, result-or-exception)`.  An
exception leaves every assignment made before the `raise` in place, exactly
as in Python. -/

/-- The mutable fields of `SnowpipeStreamingClient` (set to `None` in
`__init__`). -/
structure ClientState where
  control_host : Option String
  ingest_host : Option String
  channel_name : Option String
  continuation_token : Option String
  offset_token : Option String
  scoped_token : Option String
  deriving Repr, DecidableEq

/-- The client state right after `__init__`. -/
def ClientState.init : ClientState :=
  { control_host := none, ingest_host := none, channel_name := none,
    continuation_token := none, offset_token := none, scoped_token := none }

/-- One network round trip performed by the client (method + payload). -/
inductive NetCall where
  | getHostname
  | openChannel (channel : String)
  | insertRows (rows : List BadgeEvent)
  | channelStatus
  deriving Repr, DecidableEq

/-- The exceptions the client raises: `RuntimeError("Channel must be opened
before <op>")`, `RuntimeError("Failed to <op>: <status> - ...")`,
`RuntimeError("Empty response body from Snowflake API")`, and the pydantic
validation error from `ChannelOpenResponse(**data)`. -/
inductive ClientError where
  | channelNotOpen (op : String)
  | httpFailure (op : String) (status : ℕ)
  | emptyBody
  | responseParseError
  deriving Repr, DecidableEq

/-- Response to the hostname-discovery `GET` (status code and body text). -/
structure HttpTextResponse where
  status_code : ℕ
  text : String
  deriving Repr, DecidableEq

/-- The JSON body of a channel-open response: either field may be absent. -/
structure OpenBody where
  next_continuation_token : Option String
  channel_status : Option (List (String × String))
  deriving Repr, DecidableEq

/-- Response to the channel-open `PUT`. -/
structure OpenHttpResponse where
  status_code : ℕ
  body : OpenBody
  deriving Repr, DecidableEq

/-- Response to the row-insert `POST`: status code, and the
`next_continuation_token` field of the JSON body if the key is present. -/
structure InsertHttpResponse where
  status_code : ℕ
  next_continuation_token : Option String
  deriving Repr, DecidableEq

/-- Response to the bulk-channel-status `POST`. -/
structure StatusHttpResponse where
  status_code : ℕ
  channel_statuses : List (String × List (String × String))
  deriving Repr, DecidableEq

/-- `get_control_host`: one `GET`; on 200 with a non-empty body, stores
`"https://" ++ hostname` in `control_host`. -/
def get_control_host (s : ClientState) (resp : HttpTextResponse) :
    ClientState × List NetCall × Except ClientError String :=
  if resp.status_code ≠ 200 then
    (s, [NetCall.getHostname], .error (.httpFailure "get control host" resp.status_code))
  else if resp.text.isEmpty then
    (s, [NetCall.getHostname], .error .emptyBody)
  else
    let host := "https://" ++ pyStrip resp.text
    ({ s with control_host := some host }, [NetCall.getHostname], .ok host)

/-- `open_channel`: discovers the control host first if it is unset, then
`PUT`s the channel open.  On a 200 response it assigns `channel_name`,
`ingest_host` and `continuation_token` (the latter via `data.get`, so a
missing key stores `None`) *before* building `ChannelOpenResponse(**data)`,
which raises if either required field is absent from the body. -/
def open_channel (s : ClientState) (chan : String)
    (hostResp : HttpTextResponse) (resp : OpenHttpResponse) :
    ClientState × List NetCall × Except ClientError ChannelOpenResponse :=
  let step1 : ClientState × List NetCall × Option ClientError :=
    if pyFalsy s.control_host then
      match get_control_host s hostResp with
      | (s1, calls, .error e) => (s1, calls, some e)
      | (s1, calls, .ok _) => (s1, calls, none)
    else (s, [], none)
  match step1 with
  | (s1, calls, some e) => (s1, calls, .error e)
  | (s1, calls, none) =>
    let calls := calls ++ [NetCall.openChannel chan]
    if resp.status_code ≠ 200 then
      (s1, calls, .error (.httpFailure "open channel" resp.status_code))
    else
      let s2 := { s1 with
        channel_name := some chan,
        ingest_host := s1.control_host,
        continuation_token := resp.body.next_continuation_token }
      match resp.body.next_continuation_token, resp.body.channel_status with
      | some tok, some cs => (s2, calls, .ok ⟨tok, cs⟩)
      | _, _ => (s2, calls, .error .responseParseError)

/-- `insert_rows`: raises `ChannelNotOpen` before any network call when
`ingest_host` or `channel_name` is falsy; otherwise one `POST`.  On a 200
response, `continuation_token` is replaced only if the body contains the
`next_continuation_token` key. -/
def insert_rows (s : ClientState) (events : List BadgeEvent) (resp : InsertHttpResponse) :
    ClientState × List NetCall × Except ClientError InsertHttpResponse :=
  if pyFalsy s.ingest_host || pyFalsy s.channel_name then
    (s, [], .error (.channelNotOpen "inserting rows"))
  else if resp.status_code ≠ 200 then
    (s, [NetCall.insertRows events], .error (.httpFailure "insert rows" resp.status_code))
  else
    let s1 := match resp.next_continuation_token with
      | some tok => { s with continuation_token := some tok }
      | none => s
    (s1, [NetCall.insertRows events], .ok resp)

/-- `get_channel_status`: raises before any network call when `control_host`
or `channel_name` is falsy; otherwise one `POST`, returning the entry of
`channel_statuses` for this channel (default `{}`). -/
def get_channel_status (s : ClientState) (resp : StatusHttpResponse) :
    ClientState × List NetCall × Except ClientError (List (String × String)) :=
  if pyFalsy s.control_host || pyFalsy s.channel_name then
    (s, [], .error (.channelNotOpen "checking status"))
  else if resp.status_code ≠ 200 then
    (s, [NetCall.channelStatus], .error (.httpFailure "get channel status" resp.status_code))
  else
    (s, [NetCall.channelStatus],
     .ok (((s.channel_name.bind (fun n => resp.channel_statuses.lookup n)).getD [])))

/-- `close_channel`: only logs; no state change and no network call. -/
def close_channel (s : ClientState) : ClientState × List NetCall :=
  (s, [])

/-- Folds a sequence of `insert_rows` calls (one per `(events, response)`
pair), stopping at the first raised exception. -/
def insertMany (s : ClientState) :
    List (List BadgeEvent × InsertHttpResponse) → ClientState × Option ClientError
  | [] => (s, none)
  | (evs, r) :: rest =>
    match insert_rows s evs r with
    | (s1, _, .ok _) => insertMany s1 rest
    | (s1, _, .error e) => (s1, some e)

/-- The channel is locally open for `insert_rows`: both `ingest_host` and
`channel_name` are set and non-empty. -/
def isOpen (s : ClientState) : Prop :=
  pyFalsy s.ingest_host = false ∧ pyFalsy s.channel_name = false

instance (s : ClientState) : Decidable (isOpen s) := by
  unfold isOpen; infer_instance

/-! ## Driver loop (`src/python/simulator/simulator.py`)

`RFIDSimulator.run` with the generator, validator clock and HTTP traffic
supplied by an oracle.  `time.sleep`, logging and `KeyboardInterrupt` are not
modelled; the `finally` summary only logs. -/

/-- The configuration fields `run` reads (`src/python/simulator/config.py`). -/
structure SimConfig where
  channel_name : String
  batch_size : ℕ
  events_per_second : ℤ
  simulation_duration_days : ℕ
  strict_validation : Bool
  deriving Repr, DecidableEq

/-- The counters of `RFIDSimulator` together with its client's state. -/
structure SimState where
  client : ClientState
  total_events_sent : ℕ
  total_events_rejected : ℕ
  deriving Repr, DecidableEq

/-- A fresh simulator: client just constructed, counters zero. -/
def SimState.init : SimState :=
  { client := ClientState.init, total_events_sent := 0, total_events_rejected := 0 }

/-- The environment of one `run`: the event generator (per batch index), the
validator clock, and every HTTP response the server would give. -/
structure Oracle where
  gen : ℕ → List BadgeEvent
  now : ℤ
  hostResp : HttpTextResponse
  openResp : OpenHttpResponse
  insResp : ℕ → InsertHttpResponse
  statusResp : StatusHttpResponse

/-- The exceptions `run` can raise: a client exception propagated through the
re-raising `except` clause, the `ValueError("Calculated batch_interval must
be positive")`, or the `ZeroDivisionError` from `batch_size / 0`. -/
inductive SimError where
  | clientError (e : ClientError)
  | invalidRate
  | zeroDivision
  deriving Repr, DecidableEq

/-- Python's `arg or default` on an optional `int` argument: `None` and `0`
are falsy and fall back to the default. -/
def pyOrNat (arg : Option ℕ) (dflt : ℕ) : ℕ :=
  match arg with
  | none => dflt
  | some n => if n = 0 then dflt else n

/-- Python's `arg or default` on an optional signed `int` argument. -/
def pyOrInt (arg : Option ℤ) (dflt : ℤ) : ℤ :=
  match arg with
  | none => dflt
  | some n => if n = 0 then dflt else n

/-- `max(1, math.ceil(total_seconds / batch_interval))`. -/
def totalBatches (total_seconds : ℕ) (batch_interval : ℚ) : ℕ :=
  (max 1 (Int.ceil ((total_seconds : ℚ) / batch_interval))).toNat

/-- The valid events of batch `i` as the driver computes them:
`validate_batch(generate_batch(...), strict_mode)`. -/
def validOf (cfg : SimConfig) (o : Oracle) (i : ℕ) : List BadgeEvent :=
  (validate_batch cfg.strict_validation o.now (o.gen i)).1

/-- The rejected entries of batch `i`. -/
def rejectedOf (cfg : SimConfig) (o : Oracle) (i : ℕ) : List RejectedEvent :=
  (validate_batch cfg.strict_validation o.now (o.gen i)).2

/-- The body of the `for batch_index in range(total_batches)` loop of `run`,
iterated over the remaining batch indices: validate the generated batch,
accumulate the rejected count, and when there are valid events append them
via `insert_rows`, accumulating the sent count; a raised exception stops the
loop and propagates. -/
def runBatches (cfg : SimConfig) (o : Oracle) :
    List ℕ → SimState → List NetCall → SimState × List NetCall × Option SimError
  | [], st, calls => (st, calls, none)
  | i :: rest, st, calls =>
    let valid := validOf cfg o i
    let st := { st with
      total_events_rejected := st.total_events_rejected + (rejectedOf cfg o i).length }
    if valid.isEmpty then
      runBatches cfg o rest st calls
    else
      match insert_rows st.client valid (o.insResp i) with
      | (c1, newCalls, .ok _) =>
        runBatches cfg o rest
          { st with client := c1, total_events_sent := st.total_events_sent + valid.length }
          (calls ++ newCalls)
      | (c1, newCalls, .error e) =>
        ({ st with client := c1 }, calls ++ newCalls, some (.clientError e))

/-- `RFIDSimulator.run(duration_days, events_per_second)`: applies the
`or`-defaulting to both arguments, opens the channel, computes
`batch_interval = batch_size / events_per_second` (a `ZeroDivisionError` when
the effective rate is 0), rejects a non-positive interval, runs the batch
loop, and finally checks the channel status.  Returns the final simulator
state, the network calls made, and the exception that propagated, if any. -/
def run (cfg : SimConfig) (o : Oracle) (st0 : SimState)
    (duration_days_arg : Option ℕ) (events_per_second_arg : Option ℤ) :
    SimState × List NetCall × Option SimError :=
  let duration_days := pyOrNat duration_days_arg cfg.simulation_duration_days
  let rate := pyOrInt events_per_second_arg cfg.events_per_second
  match open_channel st0.client cfg.channel_name o.hostResp o.openResp with
  | (c1, calls, .error e) => ({ st0 with client := c1 }, calls, some (.clientError e))
  | (c1, calls, .ok _) =>
    let st := { st0 with client := c1 }
    if rate = 0 then (st, calls, some .zeroDivision)
    else
      let total_seconds := duration_days * 24 * 3600
      let batch_interval : ℚ := (cfg.batch_size : ℚ) / (rate : ℚ)
      if batch_interval ≤ 0 then (st, calls, some .invalidRate)
      else
        match runBatches cfg o (List.range (totalBatches total_seconds batch_interval)) st calls with
        | (st1, calls1, some e) => (st1, calls1, some e)
        | (st1, calls1, none) =>
          match get_channel_status st1.client o.statusResp with
          | (c2, newCalls, .error e) =>
            ({ st1 with client := c2 }, calls1 ++ newCalls, some (.clientError e))
          | (c2, newCalls, .ok _) =>
            ({ st1 with client := c2 }, calls1 ++ newCalls, none)

/-! ## Channel deletion (`src/examples/send_events_stream.py`) -/

/-- `requests.Response.raise_for_status`: raises `HTTPError` exactly for
client-error (4xx) and server-error (5xx) status codes. -/
def raise_for_status (status : ℕ) : Except String Unit :=
  if 400 ≤ status ∧ status < 600 then .error "HTTPError" else .ok ()

/-- `http_delete`: statuses 200, 202, 204 and 404 return immediately; every
other status is passed to `raise_for_status`. -/
def http_delete (status : ℕ) : Except String Unit :=
  if status = 200 ∨ status = 202 ∨ status = 204 ∨ status = 404 then .ok ()
  else raise_for_status status

/-! ## Decidability and concrete fixtures -/

instance exceptDecEq {ε α : Type} [DecidableEq ε] [DecidableEq α] :
    DecidableEq (Except ε α) := fun a b =>
  match a, b with
  | .error x, .error y =>
    if h : x = y then .isTrue (by rw [h]) else .isFalse (fun hh => h (Except.error.inj hh))
  | .ok x, .ok y =>
    if h : x = y then .isTrue (by rw [h]) else .isFalse (fun hh => h (Except.ok.inj hh))
  | .error _, .ok _ => .isFalse (fun hh => Except.noConfusion hh)
  | .ok _, .error _ => .isFalse (fun hh => Except.noConfusion hh)

/-- A concrete `SnowflakeAuth` instance. -/
def authEx : SnowflakeAuth := ⟨"myorg", "alice", "SHA256:abc"⟩

/-- A concrete badge event that passes every validation check
(clock `nowEx` below). -/
def eventEx : BadgeEvent :=
  ⟨"BADGE-1", "USR-1", "ZONE-1", "RDR-1", 999999000000, some (-50), some "ENTRY"⟩

/-- A concrete badge event with a positive signal strength (5 dBm). -/
def badEx : BadgeEvent :=
  ⟨"BADGE-2", "USR-2", "ZONE-2", "RDR-2", 999999000000, some 5, none⟩

/-- The concrete validator clock used by the fixtures. -/
def nowEx : ℤ := 1000000000000

/-- A concrete client state whose channel is locally open. -/
def sOpenEx : ClientState :=
  ⟨some "https://h", some "https://h", some "ch", some "tok0", none, none⟩

/-- A concrete oracle: channel-open succeeds, the insert for batch 0 returns
200 with a fresh token, every later insert returns 500. -/
def oracleEx : Oracle :=
  { gen := fun i => if i = 0 then [eventEx, eventEx] else [eventEx],
    now := nowEx,
    hostResp := ⟨200, "host.example"⟩,
    openResp := ⟨200, ⟨some "tok0", some []⟩⟩,
    insResp := fun i => if i = 0 then ⟨200, some "tok1"⟩ else ⟨500, none⟩,
    statusResp := ⟨200, []⟩ }

/-- A concrete configuration: one simulated day in batches of 30000 events. -/
def cfgEx : SimConfig :=
  { channel_name := "ch", batch_size := 30000, events_per_second := 50,
    simulation_duration_days := 1, strict_validation := false }

/-! ## General lemmas about the client operations -/

/-- Appending the empty string is the identity. -/
theorem str_append_empty (s : String) : s ++ "" = s := by
  cases s with
  | mk data =>
    show String.mk (data ++ []) = String.mk data
    rw [List.append_nil]

/-- The character data of an appended string. -/
theorem str_data_append (a b : String) : (a ++ b).data = a.data ++ b.data := rfl

/-- `insert_rows` on a session that is not locally open: no state change, no
network call, `ChannelNotOpen`. -/
theorem insert_rows_unopened (s : ClientState) (evs : List BadgeEvent)
    (r : InsertHttpResponse)
    (h : pyFalsy s.ingest_host = true ∨ pyFalsy s.channel_name = true) :
    insert_rows s evs r = (s, [], .error (.channelNotOpen "inserting rows")) := by
  unfold insert_rows
  rcases h with h | h <;> simp [h]

/-- `insert_rows` on an open session with a 200 response: the continuation
token advances if the body carries one, and the call succeeds. -/
theorem insert_rows_open_ok (s : ClientState) (evs : List BadgeEvent)
    (r : InsertHttpResponse) (hopen : isOpen s) (h200 : r.status_code = 200) :
    insert_rows s evs r =
      ({ s with continuation_token :=
          match r.next_continuation_token with
          | some tok => some tok
          | none => s.continuation_token },
       [NetCall.insertRows evs], .ok r) := by
  obtain ⟨h1, h2⟩ := hopen
  unfold insert_rows
  simp [h1, h2, h200]
  cases r.next_continuation_token <;> rfl

/-- `insert_rows` on an open session with a non-200 response: state is
unchanged and the HTTP failure is raised. -/
theorem insert_rows_open_fail (s : ClientState) (evs : List BadgeEvent)
    (r : InsertHttpResponse) (hopen : isOpen s) (hbad : r.status_code ≠ 200) :
    insert_rows s evs r =
      (s, [NetCall.insertRows evs], .error (.httpFailure "insert rows" r.status_code)) := by
  obtain ⟨h1, h2⟩ := hopen
  unfold insert_rows
  simp [h1, h2, hbad]

/-- A successful `insert_rows` keeps the session open. -/
theorem insert_rows_preserves_open (s : ClientState) (r : InsertHttpResponse)
    (hopen : isOpen s) :
    isOpen { s with continuation_token :=
      match r.next_continuation_token with
      | some tok => some tok
      | none => s.continuation_token } := hopen

/-- `insert_rows` performs at most the one row-insert call. -/
theorem insert_rows_calls (s : ClientState) (evs : List BadgeEvent)
    (r : InsertHttpResponse) :
    (insert_rows s evs r).2.1 = [] ∨ (insert_rows s evs r).2.1 = [NetCall.insertRows evs] := by
  unfold insert_rows
  split
  · exact Or.inl rfl
  · split
    · exact Or.inr rfl
    · cases r.next_continuation_token <;> exact Or.inr rfl


/-- `open_channel` on a session without a control host, when hostname
discovery and the `PUT` both return 200: the state assignments happen
unconditionally, and the result is `ok` exactly when the body is complete. -/
theorem open_channel_fresh_eq (s : ClientState) (chan : String)
    (hR : HttpTextResponse) (oR : OpenHttpResponse)
    (h1 : pyFalsy s.control_host = true) (h2 : hR.status_code = 200)
    (h3 : hR.text.isEmpty = false) (h4 : oR.status_code = 200) :
    open_channel s chan hR oR =
      ({ s with control_host := some ("https://" ++ pyStrip hR.text),
                channel_name := some chan,
                ingest_host := some ("https://" ++ pyStrip hR.text),
                continuation_token := oR.body.next_continuation_token },
       [NetCall.getHostname, NetCall.openChannel chan],
       match oR.body.next_continuation_token, oR.body.channel_status with
       | some tok, some cs => .ok ⟨tok, cs⟩
       | _, _ => .error .responseParseError) := by
  obtain ⟨st, tokOpt, csOpt⟩ := oR
  unfold open_channel get_control_host
  simp only at h4
  simp [h1, h2, h3, h4]
  cases tokOpt <;> cases csOpt <;> rfl

/-- `open_channel` on a session that already has a control host. -/
theorem open_channel_warm_eq (s : ClientState) (chan : String)
    (hR : HttpTextResponse) (oR : OpenHttpResponse)
    (h1 : pyFalsy s.control_host = false) (h4 : oR.status_code = 200) :
    open_channel s chan hR oR =
      ({ s with channel_name := some chan,
                ingest_host := s.control_host,
                continuation_token := oR.body.next_continuation_token },
       [NetCall.openChannel chan],
       match oR.body.next_continuation_token, oR.body.channel_status with
       | some tok, some cs => .ok ⟨tok, cs⟩
       | _, _ => .error .responseParseError) := by
  obtain ⟨st, tokOpt, csOpt⟩ := oR
  unfold open_channel
  simp only at h4
  simp [h1, h4]
  cases tokOpt <;> cases csOpt <;> rfl

/-- A fully successful `open_channel` from a fresh session. -/
theorem open_channel_fresh_ok (s : ClientState) (chan tok : String)
    (cs : List (String × String)) (hR : HttpTextResponse) (oR : OpenHttpResponse)
    (h1 : pyFalsy s.control_host = true) (h2 : hR.status_code = 200)
    (h3 : hR.text.isEmpty = false) (h4 : oR.status_code = 200)
    (h5 : oR.body.next_continuation_token = some tok)
    (h6 : oR.body.channel_status = some cs) :
    open_channel s chan hR oR =
      ({ s with control_host := some ("https://" ++ pyStrip hR.text),
                channel_name := some chan,
                ingest_host := some ("https://" ++ pyStrip hR.text),
                continuation_token := some tok },
       [NetCall.getHostname, NetCall.openChannel chan], .ok ⟨tok, cs⟩) := by
  rw [open_channel_fresh_eq s chan hR oR h1 h2 h3 h4, h5, h6]

/-- A string starting with the scheme prefix is never empty. -/
theorem scheme_append_ne_empty (t : String) :
    pyFalsy (some ("https://" ++ t)) = false := by
  show (("https://" ++ t).data).isEmpty = false
  rw [str_data_append]
  rfl


/-- An open session's `insert_rows` never raises `ChannelNotOpen`. -/
theorem insert_rows_open_never_notOpen (s : ClientState)
    (h1 : pyFalsy s.ingest_host = false) (h2 : pyFalsy s.channel_name = false)
    (evs : List BadgeEvent) (iR : InsertHttpResponse) :
    (insert_rows s evs iR).2.2 ≠ .error (.channelNotOpen "inserting rows") := by
  intro h
  unfold insert_rows at h
  simp [h1, h2] at h
  split at h <;> simp_all

/-! ## Claim theorems -/

/-- C5: on a `ChannelSession` on which `open` has never succeeded (ingest
host or channel name unset), `append` fails with `ChannelNotOpen`, leaves
the whole session state unchanged, and makes no network call. -/
theorem append_before_open_no_effect (s : ClientState) (evs : List BadgeEvent)
    (r : InsertHttpResponse)
    (h : pyFalsy s.ingest_host = true ∨ pyFalsy s.channel_name = true) :
    insert_rows s evs r = (s, [], .error (.channelNotOpen "inserting rows")) :=
  insert_rows_unopened s evs r h

/-- C5 witness: a freshly constructed client rejects an append with
`ChannelNotOpen`, unchanged state and no network traffic. -/
theorem append_before_open_no_effect_witness :
    insert_rows ClientState.init [eventEx] ⟨200, some "t1"⟩ =
      (ClientState.init, [], .error (.channelNotOpen "inserting rows")) :=
  append_before_open_no_effect ClientState.init [eventEx] ⟨200, some "t1"⟩
    (Or.inl (by decide))

/-- C4 counterexample: after `close()` on an open session, the local state is
unchanged (there is no `CLOSED` state) and a subsequent append *succeeds*
instead of failing with `ChannelNotOpen`, contradicting the claim. -/
theorem close_then_append_succeeds_cex :
    (close_channel sOpenEx).1 = sOpenEx ∧
    (insert_rows (close_channel sOpenEx).1 [eventEx] ⟨200, some "t1"⟩).2.2 =
      .ok ⟨200, some "t1"⟩ := by
  constructor
  · rfl
  · decide

/-- C4 (amended): `close()` performs no network round trip and leaves the
local session state entirely unchanged — there is no `CLOSED` state — so an
append on a previously open session still does not fail with
`ChannelNotOpen` after `close()`. -/
theorem close_channel_no_op (s : ClientState) :
    close_channel s = (s, []) ∧
    (isOpen s → ∀ (evs : List BadgeEvent) (r : InsertHttpResponse),
      (insert_rows (close_channel s).1 evs r).2.2 ≠
        .error (.channelNotOpen "inserting rows")) := by
  refine ⟨rfl, fun hopen evs r => ?_⟩
  exact insert_rows_open_never_notOpen s hopen.1 hopen.2 evs r

/-- C4 witness: `close_channel_no_op` at the concrete open session. -/
theorem close_channel_no_op_witness :
    close_channel sOpenEx = (sOpenEx, []) ∧
    (insert_rows (close_channel sOpenEx).1 [eventEx] ⟨500, none⟩).2.2 ≠
      .error (.channelNotOpen "inserting rows") :=
  ⟨(close_channel_no_op sOpenEx).1,
   (close_channel_no_op sOpenEx).2 (by decide) [eventEx] ⟨500, none⟩⟩

/-- C10: a channel-open whose `PUT` returns 200 but whose body is missing
`next_continuation_token` or `channel_status` raises the response-parse
error *after* having assigned `channel_name`, `ingest_host` and
`continuation_token`, so the failed open is not atomic and a subsequent
append is not rejected as channel-not-open. -/
theorem open_channel_parse_failure_not_atomic (s : ClientState) (chan : String)
    (hR : HttpTextResponse) (oR : OpenHttpResponse)
    (hchan : pyFalsy (some chan) = false)
    (h2 : hR.status_code = 200) (h3 : hR.text.isEmpty = false)
    (h4 : oR.status_code = 200)
    (hbad : oR.body.next_continuation_token = none ∨ oR.body.channel_status = none) :
    (open_channel s chan hR oR).2.2 = .error .responseParseError ∧
    (open_channel s chan hR oR).1.channel_name = some chan ∧
    pyFalsy (open_channel s chan hR oR).1.ingest_host = false ∧
    (open_channel s chan hR oR).1.continuation_token = oR.body.next_continuation_token ∧
    ∀ (evs : List BadgeEvent) (iR : InsertHttpResponse),
      (insert_rows (open_channel s chan hR oR).1 evs iR).2.2 ≠
        .error (.channelNotOpen "inserting rows") := by
  have hmatch : (match oR.body.next_continuation_token, oR.body.channel_status with
      | some tok, some cs =>
        (Except.ok (⟨tok, cs⟩ : ChannelOpenResponse) : Except ClientError ChannelOpenResponse)
      | _, _ => .error .responseParseError) = .error .responseParseError := by
    rcases hbad with hb | hb <;> rw [hb] <;>
      first
      | rfl
      | cases oR.body.next_continuation_token <;> rfl
      | cases oR.body.channel_status <;> rfl
  cases hfal : pyFalsy s.control_host with
  | false =>
    rw [open_channel_warm_eq s chan hR oR hfal h4]
    refine ⟨hmatch, rfl, hfal, rfl, fun evs iR => ?_⟩
    exact insert_rows_open_never_notOpen _ hfal hchan evs iR
  | true =>
    rw [open_channel_fresh_eq s chan hR oR hfal h2 h3 h4]
    refine ⟨hmatch, rfl, scheme_append_ne_empty _, rfl, fun evs iR => ?_⟩
    exact insert_rows_open_never_notOpen _ (scheme_append_ne_empty _) hchan evs iR

/-- C10 witness: `open_channel_parse_failure_not_atomic` at a concrete fresh
session and a 200 response whose body is missing `channel_status`. -/
theorem open_channel_parse_failure_not_atomic_witness :
    (open_channel ClientState.init "ch" ⟨200, "host.example"⟩
        ⟨200, ⟨some "tok0", none⟩⟩).2.2 = .error .responseParseError ∧
    (open_channel ClientState.init "ch" ⟨200, "host.example"⟩
        ⟨200, ⟨some "tok0", none⟩⟩).1.channel_name = some "ch" ∧
    (insert_rows (open_channel ClientState.init "ch" ⟨200, "host.example"⟩
        ⟨200, ⟨some "tok0", none⟩⟩).1 [eventEx] ⟨200, some "t1"⟩).2.2 ≠
      .error (.channelNotOpen "inserting rows") := by
  have h := open_channel_parse_failure_not_atomic ClientState.init "ch"
    ⟨200, "host.example"⟩ ⟨200, ⟨some "tok0", none⟩⟩
    (by decide) (by decide) (by decide) (by decide) (Or.inr rfl)
  exact ⟨h.1, h.2.1, h.2.2.2.2 [eventEx] ⟨200, some "t1"⟩⟩

/-- C7: `generate_jwt_token` rejects every expiration strictly above 60
minutes with a `ValueError` (never clamps), and for every expiration of at
most 60 minutes issues a payload with `sub = upper("{account}.{user}")`,
`iss = sub + "." + fingerprint`, and `exp = iat + expiration_minutes`. -/
theorem generate_jwt_token_spec (a : SnowflakeAuth) (now m : ℤ) :
    (m > 60 → generate_jwt_token a now m =
      .error "JWT token expiration cannot exceed 60 minutes") ∧
    (m ≤ 60 → generate_jwt_token a now m =
      .ok { iss := pyUpper (a.account ++ "." ++ a.user) ++ "." ++ a.public_key_fingerprint,
            sub := pyUpper (a.account ++ "." ++ a.user),
            iat := now,
            exp := now + m * usPerMinute }) := by
  constructor
  · intro h
    unfold generate_jwt_token
    rw [if_pos h]
  · intro h
    unfold generate_jwt_token
    rw [if_neg (not_lt.mpr h)]

/-- C7 witness: `generate_jwt_token_spec` at 61 minutes (rejected) and at 59
minutes (payload fully evaluated). -/
theorem generate_jwt_token_spec_witness :
    generate_jwt_token authEx 0 61 =
      .error "JWT token expiration cannot exceed 60 minutes" ∧
    generate_jwt_token authEx 0 59 =
      .ok ⟨"MYORG.ALICE.SHA256:abc", "MYORG.ALICE", 0, 3540000000⟩ := by
  constructor
  · exact (generate_jwt_token_spec authEx 0 61).1 (by decide)
  · exact ((generate_jwt_token_spec authEx 0 59).2 (by decide)).trans (by decide)

/-- C2 counterexample: two `get_auth_header` calls 60 seconds apart — far
inside the claimed 5-minute safety margin of the first token, which lasts 59
minutes — return *different* assertions: nothing is cached, a second
issuance happens on every call. -/
theorem get_auth_header_not_cached_cex :
    get_auth_header authEx 0 ≠ get_auth_header authEx 60000000 ∧
    (60000000 : ℤ) < 0 + 59 * usPerMinute - 5 * usPerMinute := by
  constructor
  · decide
  · decide

/-- C2 (amended): every `get_auth_header` call issues a *fresh* assertion
whose `iat` is the call instant and whose validity is 59 minutes — always
more than the 5-minute margin — but no caching exists, so calls at different
instants return different assertions. -/
theorem get_auth_header_fresh_each_call (a : SnowflakeAuth) (now : ℤ) :
    get_auth_header a now =
      .ok { iss := pyUpper (a.account ++ "." ++ a.user) ++ "." ++ a.public_key_fingerprint,
            sub := pyUpper (a.account ++ "." ++ a.user),
            iat := now,
            exp := now + 59 * usPerMinute } ∧
    now + 5 * usPerMinute < now + 59 * usPerMinute := by
  constructor
  · exact (generate_jwt_token_spec a now 59).2 (by norm_num)
  · have : (5 : ℤ) * usPerMinute < 59 * usPerMinute := by norm_num [usPerMinute]
    omega

/-- C9 counterexample: `http_delete` treats status 201 as success even
though 201 is not one of 200/202/204/404, contradicting "raises an error
for every other status". -/
theorem http_delete_201_success_cex :
    http_delete 201 = .ok () ∧
    ¬(201 = 200 ∨ 201 = 202 ∨ 201 = 204 ∨ 201 = 404) := by
  constructor
  · decide
  · decide

/-- C9 (amended): `http_delete` succeeds exactly when the status is one of
200/202/204/404 *or* any other status outside the 4xx/5xx error range
(`raise_for_status` only raises for 400–599); it raises for every 4xx/5xx
status other than 404. -/
theorem http_delete_success_iff (status : ℕ) :
    http_delete status = .ok () ↔
      (status = 200 ∨ status = 202 ∨ status = 204 ∨ status = 404 ∨
        ¬(400 ≤ status ∧ status < 600)) := by
  unfold http_delete raise_for_status
  split
  · simp_all
    omega
  · split <;> simp_all <;> omega


/-- C1: on an open session, a run of `N` successful appends whose responses
each carry a continuation token succeeds throughout and leaves
`continuation_token` equal to the token of the `N`th (last) response — never
one from an earlier response or from channel-open. -/
theorem successful_appends_track_latest_token (s : ClientState)
    (steps : List (List BadgeEvent × InsertHttpResponse))
    (hopen : isOpen s) (hne : steps ≠ [])
    (hall : ∀ p ∈ steps, p.2.status_code = 200 ∧ p.2.next_continuation_token ≠ none) :
    (insertMany s steps).2 = none ∧
    (insertMany s steps).1.continuation_token =
      (steps.getLast hne).2.next_continuation_token := by
  induction steps generalizing s with
  | nil => exact absurd rfl hne
  | cons p rest ih =>
    obtain ⟨evs, r⟩ := p
    obtain ⟨h200, htok⟩ := hall (evs, r) (List.mem_cons_self _ _)
    obtain ⟨tok, htok2⟩ := Option.ne_none_iff_exists'.mp htok
    have heq := insert_rows_open_ok s evs r hopen h200
    cases rest with
    | nil =>
      unfold insertMany
      rw [heq]
      simp only at htok2
      simp [insertMany, htok2, List.getLast]
    | cons q rest2 =>
      unfold insertMany
      rw [heq]
      have hopen2 : isOpen { s with continuation_token :=
          match r.next_continuation_token with
          | some tok => some tok
          | none => s.continuation_token } := hopen
      have hrec := ih _ hopen2 (by simp)
        (fun p hp => hall p (List.mem_cons_of_mem _ hp))
      rw [List.getLast_cons]
      exact hrec

/-- A concrete two-append run: both responses succeed with fresh tokens. -/
def stepsEx : List (List BadgeEvent × InsertHttpResponse) :=
  [([eventEx], ⟨200, some "t1"⟩), ([eventEx], ⟨200, some "t2"⟩)]

/-- C1 witness: after the two concrete appends of `stepsEx`, the session
token is the second response's token, not "t1" and not the open token. -/
theorem successful_appends_track_latest_token_witness :
    (insertMany sOpenEx stepsEx).2 = none ∧
    (insertMany sOpenEx stepsEx).1.continuation_token = some "t2" := by
  have h := successful_appends_track_latest_token sOpenEx stepsEx
    (by decide) (by decide) (by decide)
  exact ⟨h.1, h.2.trans (by decide)⟩

/-! ## Validator lemmas -/

/-- A positive signal strength puts the "cannot be positive" message among
the errors and makes the event invalid. -/
theorem validate_event_positive_signal (strict : Bool) (now : ℤ)
    (e : BadgeEvent) (q : ℚ) (hq : e.signal_strength = some q) (hpos : 0 < q) :
    (validate_event strict now e).1 = false ∧
    ("Signal strength " ++ toString q ++ " dBm " ++ "cannot be positive") ∈
      (validate_event strict now e).2 := by
  have hsig : ("Signal strength " ++ toString q ++ " dBm " ++ "cannot be positive") ∈
      (signal_checks e).1 := by
    unfold signal_checks
    rw [hq]
    simp [hpos]
  have herrs : ("Signal strength " ++ toString q ++ " dBm " ++ "cannot be positive") ∈
      (required_errors e ++ (timestamp_checks now e).1 ++ (signal_checks e).1 ++
        identifier_errors e) := by
    exact List.mem_append_left _ (List.mem_append_right _ hsig)
  constructor
  · unfold validate_event
    simp only
    rw [List.isEmpty_eq_false_iff_exists_mem.mpr ⟨_, herrs⟩]
    rfl
  · unfold validate_event
    simp only
    exact List.mem_append_left _ herrs

/-- Members of the valid half of `validate_batch` validate to `true` and come
from the input batch. -/
theorem mem_valid_validate (strict : Bool) (now : ℤ) (evs : List BadgeEvent)
    (x : BadgeEvent) (hx : x ∈ (validate_batch strict now evs).1) :
    (validate_event strict now x).1 = true ∧ x ∈ evs := by
  induction evs with
  | nil => simp [validate_batch] at hx
  | cons e rest ih =>
    simp only [validate_batch] at hx
    split at hx
    · rcases List.mem_cons.mp hx with rfl | hx2
      · exact ⟨by assumption, List.mem_cons_self _ _⟩
      · obtain ⟨hv, hm⟩ := ih hx2
        exact ⟨hv, List.mem_cons_of_mem _ hm⟩
    · obtain ⟨hv, hm⟩ := ih hx
      exact ⟨hv, List.mem_cons_of_mem _ hm⟩

/-- An invalid member of the batch appears among the rejected entries,
carrying exactly its validation messages. -/
theorem invalid_mem_rejected (strict : Bool) (now : ℤ) (evs : List BadgeEvent)
    (e : BadgeEvent) (hinv : (validate_event strict now e).1 = false)
    (hm : e ∈ evs) :
    ∃ entry ∈ (validate_batch strict now evs).2, entry.event = e ∧
      entry.reasons = (validate_event strict now e).2 := by
  induction evs with
  | nil => cases hm
  | cons f rest ih =>
    simp only [validate_batch]
    rcases List.mem_cons.mp hm with rfl | hm2
    · rw [if_neg (by rw [hinv]; exact Bool.false_ne_true)]
      exact ⟨⟨e, (validate_event strict now e).2⟩, List.mem_cons_self _ _, rfl, rfl⟩
    · obtain ⟨entry, hmem, he⟩ := ih hm2
      split
      · exact ⟨entry, hmem, he⟩
      · exact ⟨entry, List.mem_cons_of_mem _ hmem, he⟩


theorem get_control_host_calls (s : ClientState) (hR : HttpTextResponse) :
    (get_control_host s hR).2.1 = [NetCall.getHostname] := by
  unfold get_control_host
  split
  · rfl
  · split
    · rfl
    · rfl

theorem open_channel_calls_cases (s : ClientState) (chan : String)
    (hR : HttpTextResponse) (oR : OpenHttpResponse) :
    (open_channel s chan hR oR).2.1 = [NetCall.getHostname] ∨
    (open_channel s chan hR oR).2.1 = [NetCall.getHostname, NetCall.openChannel chan] ∨
    (open_channel s chan hR oR).2.1 = [NetCall.openChannel chan] := by
  unfold open_channel
  cases hfal : pyFalsy s.control_host with
  | false =>
    simp only [hfal, Bool.false_eq_true, if_false]
    by_cases hst : oR.status_code = 200
    · simp only [hst]
      cases oR.body.next_continuation_token <;> cases oR.body.channel_status <;> simp
    · simp [hst]
  | true =>
    have hcalls := get_control_host_calls s hR
    rcases hg : get_control_host s hR with ⟨s1, calls, res⟩
    rw [hg] at hcalls
    simp only at hcalls
    subst hcalls
    simp only [hfal, if_true, hg]
    cases res with
    | error e => simp
    | ok a =>
      by_cases hst : oR.status_code = 200
      · simp only [hst]
        cases oR.body.next_continuation_token <;> cases oR.body.channel_status <;> simp
      · simp [hst]

theorem status_calls_cases (s : ClientState) (resp : StatusHttpResponse) :
    (get_channel_status s resp).2.1 = [] ∨
    (get_channel_status s resp).2.1 = [NetCall.channelStatus] := by
  unfold get_channel_status
  split
  · exact Or.inl rfl
  · split
    · exact Or.inr rfl
    · exact Or.inr rfl


/-- Every row-insert call recorded by the batch loop either was already in
the accumulator or carries exactly the valid events of one processed batch. -/
theorem runBatches_insert_calls_origin (cfg : SimConfig) (o : Oracle)
    (l : List ℕ) (st : SimState) (calls : List NetCall) (evs2 : List BadgeEvent)
    (h : NetCall.insertRows evs2 ∈ (runBatches cfg o l st calls).2.1) :
    NetCall.insertRows evs2 ∈ calls ∨ ∃ i ∈ l, evs2 = validOf cfg o i := by
  induction l generalizing st calls with
  | nil => exact Or.inl h
  | cons i rest ih =>
    simp only [runBatches] at h
    split at h
    · rcases ih _ _ h with hc | ⟨j, hj, hje⟩
      · exact Or.inl hc
      · exact Or.inr ⟨j, List.mem_cons_of_mem _ hj, hje⟩
    · rename_i hne
      split at h
      · rename_i c1 newCalls val heq
        rcases ih _ _ h with hc | ⟨j, hj, hje⟩
        · rcases List.mem_append.mp hc with hc1 | hc2
          · exact Or.inl hc1
          · have hcalls : newCalls = [] ∨ newCalls = [NetCall.insertRows (validOf cfg o i)] := by
              have := insert_rows_calls st.client (validOf cfg o i) (o.insResp i)
              rw [heq] at this
              exact this
            rcases hcalls with rfl | rfl
            · cases hc2
            · rcases List.mem_singleton.mp hc2 with he
              have : evs2 = validOf cfg o i := NetCall.insertRows.inj he
              exact Or.inr ⟨i, List.mem_cons_self _ _, this⟩
        · exact Or.inr ⟨j, List.mem_cons_of_mem _ hj, hje⟩
      · rename_i c1 newCalls err heq
        rcases List.mem_append.mp h with hc1 | hc2
        · exact Or.inl hc1
        · have hcalls : newCalls = [] ∨ newCalls = [NetCall.insertRows (validOf cfg o i)] := by
            have := insert_rows_calls st.client (validOf cfg o i) (o.insResp i)
            rw [heq] at this
            exact this
          rcases hcalls with rfl | rfl
          · cases hc2
          · rcases List.mem_singleton.mp hc2 with he
            have : evs2 = validOf cfg o i := NetCall.insertRows.inj he
            exact Or.inr ⟨i, List.mem_cons_self _ _, this⟩

/-- Every row-insert call in a full `run` trace carries the valid events of
some batch index. -/
theorem run_insert_calls_origin (cfg : SimConfig) (o : Oracle) (st0 : SimState)
    (dd : Option ℕ) (rt : Option ℤ) (evs2 : List BadgeEvent)
    (h : NetCall.insertRows evs2 ∈ (run cfg o st0 dd rt).2.1) :
    ∃ i, evs2 = validOf cfg o i := by
  have hopenc := open_channel_calls_cases st0.client cfg.channel_name o.hostResp o.openResp
  unfold run at h
  split at h
  · rename_i c1 calls e heq
    rw [heq] at hopenc
    simp only at hopenc
    rcases hopenc with hc | hc | hc <;> rw [hc] at h <;> simp at h
  · rename_i c1 calls a heq
    rw [heq] at hopenc
    simp only at hopenc
    have hnotopen : NetCall.insertRows evs2 ∉ calls := by
      rcases hopenc with hc | hc | hc <;> rw [hc] <;> simp
    dsimp only at h
    split at h
    · exact absurd h hnotopen
    · split at h
      · exact absurd h hnotopen
      · split at h
        · rename_i st1 calls1 e heq1
          have := runBatches_insert_calls_origin cfg o _ _ _ evs2 (by rw [heq1]; exact h)
          rcases this with hc | ⟨i, _, hi⟩
          · exact absurd hc hnotopen
          · exact ⟨i, hi⟩
        · rename_i st1 calls1 heq1
          have hstat := status_calls_cases st1.client o.statusResp
          split at h
          · rename_i c2 newCalls e heq2
            rw [heq2] at hstat
            simp only at hstat
            rcases List.mem_append.mp h with hc | hc
            · have := runBatches_insert_calls_origin cfg o _ _ _ evs2 (by rw [heq1]; exact hc)
              rcases this with hc2 | ⟨i, _, hi⟩
              · exact absurd hc2 hnotopen
              · exact ⟨i, hi⟩
            · rcases hstat with rfl | rfl
              · cases hc
              · cases List.mem_singleton.mp hc
          · rename_i c2 newCalls a2 heq2
            rw [heq2] at hstat
            simp only at hstat
            rcases List.mem_append.mp h with hc | hc
            · have := runBatches_insert_calls_origin cfg o _ _ _ evs2 (by rw [heq1]; exact hc)
              rcases this with hc2 | ⟨i, _, hi⟩
              · exact absurd hc2 hnotopen
              · exact ⟨i, hi⟩
            · rcases hstat with rfl | rfl
              · cases hc
              · cases List.mem_singleton.mp hc


/-- C8: a badge event with a positive signal strength is invalid, is
rejected by batch validation with a reason containing "cannot be positive",
never appears in the valid-events list, and the driver never includes it in
any row-insert (append) network call. -/
theorem positive_signal_never_appended (e : BadgeEvent) (q : ℚ)
    (hq : e.signal_strength = some q) (hpos : 0 < q) :
    (∀ (strict : Bool) (now : ℤ), (validate_event strict now e).1 = false ∧
      ∃ m ∈ (validate_event strict now e).2, ∃ pre post : String,
        m = pre ++ "cannot be positive" ++ post) ∧
    (∀ (strict : Bool) (now : ℤ) (evs : List BadgeEvent), e ∈ evs →
      e ∉ (validate_batch strict now evs).1 ∧
      ∃ entry ∈ (validate_batch strict now evs).2, entry.event = e ∧
        ∃ m ∈ entry.reasons, ∃ pre post : String,
          m = pre ++ "cannot be positive" ++ post) ∧
    (∀ (cfg : SimConfig) (o : Oracle) (st0 : SimState) (dd : Option ℕ)
        (rt : Option ℤ) (evs2 : List BadgeEvent),
      NetCall.insertRows evs2 ∈ (run cfg o st0 dd rt).2.1 → e ∉ evs2) := by
  have hmsg : ∀ (strict : Bool) (now : ℤ),
      (validate_event strict now e).1 = false ∧
      ∃ m ∈ (validate_event strict now e).2, ∃ pre post : String,
        m = pre ++ "cannot be positive" ++ post := by
    intro strict now
    obtain ⟨hfalse, hmem⟩ := validate_event_positive_signal strict now e q hq hpos
    refine ⟨hfalse, _, hmem, "Signal strength " ++ toString q ++ " dBm ", "", ?_⟩
    rw [str_append_empty]
  refine ⟨hmsg, ?_, ?_⟩
  · intro strict now evs hmem
    constructor
    · intro hv
      have := (mem_valid_validate strict now evs e hv).1
      rw [(hmsg strict now).1] at this
      exact Bool.false_ne_true this
    · obtain ⟨entry, hent, hev, hreason⟩ :=
        invalid_mem_rejected strict now evs e (hmsg strict now).1 hmem
      obtain ⟨m, hm, pre, post, hsplit⟩ := (hmsg strict now).2
      exact ⟨entry, hent, hev, m, by rw [hreason]; exact hm, pre, post, hsplit⟩
  · intro cfg o st0 dd rt evs2 hcall hmem
    obtain ⟨i, hi⟩ := run_insert_calls_origin cfg o st0 dd rt evs2 hcall
    rw [hi] at hmem
    have := (mem_valid_validate cfg.strict_validation o.now (o.gen i) e hmem).1
    rw [(hmsg cfg.strict_validation o.now).1] at this
    exact Bool.false_ne_true this

/-- C8 witness: `positive_signal_never_appended` applied to the concrete
event with signal strength 5, which is excluded from the valid half of a
concrete batch and rejected with a recorded reason. -/
theorem positive_signal_never_appended_witness :
    (validate_event false nowEx badEx).1 = false ∧
    badEx ∉ (validate_batch false nowEx [eventEx, badEx]).1 ∧
    ∃ entry ∈ (validate_batch false nowEx [eventEx, badEx]).2, entry.event = badEx := by
  have h := positive_signal_never_appended badEx 5 rfl (by decide)
  obtain ⟨hrej, hmem⟩ := h.2.1 false nowEx [eventEx, badEx] (by decide)
  obtain ⟨entry, hent, hev, _⟩ := hmem
  exact ⟨(h.1 false nowEx).1, hrej, entry, hent, hev⟩


/-! ## Driver-loop lemmas for the append-failure claim -/

/-- Batch `i` makes the driver fail: it has valid events (so an append is
attempted) and the server answers with a non-200 status. -/
def failsAt (cfg : SimConfig) (o : Oracle) (i : ℕ) : Prop :=
  (validOf cfg o i).isEmpty = false ∧ (o.insResp i).status_code ≠ 200

instance (cfg : SimConfig) (o : Oracle) (i : ℕ) : Decidable (failsAt cfg o i) := by
  unfold failsAt
  infer_instance

/-- The total count of valid events over the given batch indices. -/
def sentOf (cfg : SimConfig) (o : Oracle) (l : List ℕ) : ℕ :=
  (l.map (fun i => (validOf cfg o i).length)).sum

/-- The row-insert calls the loop makes for the given batch indices when all
of them succeed: one call per batch with a non-empty valid list. -/
def batchCalls (cfg : SimConfig) (o : Oracle) (l : List ℕ) : List NetCall :=
  l.filterMap (fun i =>
    if (validOf cfg o i).isEmpty then none
    else some (NetCall.insertRows (validOf cfg o i)))

/-- Splitting `List.range` at an inner index. -/
theorem range_split (k n : ℕ) (h : k < n) :
    ∃ l2, List.range n = List.range k ++ k :: l2 := by
  obtain ⟨j, rfl⟩ : ∃ j, n = k + (j + 1) := ⟨n - (k + 1), by omega⟩
  refine ⟨(List.range j).map (fun t => k + (t + 1)), ?_⟩
  rw [List.range_add, List.range_succ_eq_map]
  simp [Function.comp]

/-- The batch loop on `l1 ++ k :: l2`, when every batch in `l1` succeeds and
batch `k` fails: it stops at `k` with the append HTTP failure, counts
exactly the valid events of `l1`, and traces one append per non-empty batch
of `l1` plus the failing append — nothing from `l2`. -/
theorem runBatches_fail_first (cfg : SimConfig) (o : Oracle) (l1 : List ℕ)
    (k : ℕ) (l2 : List ℕ) (st : SimState) (calls : List NetCall)
    (hopen : isOpen st.client)
    (hok : ∀ i ∈ l1, ¬ failsAt cfg o i)
    (hfail : failsAt cfg o k) :
    (runBatches cfg o (l1 ++ k :: l2) st calls).2.2 =
      some (.clientError (.httpFailure "insert rows" (o.insResp k).status_code)) ∧
    (runBatches cfg o (l1 ++ k :: l2) st calls).1.total_events_sent =
      st.total_events_sent + sentOf cfg o l1 ∧
    (runBatches cfg o (l1 ++ k :: l2) st calls).2.1 =
      calls ++ batchCalls cfg o l1 ++ [NetCall.insertRows (validOf cfg o k)] := by
  induction l1 generalizing st calls with
  | nil =>
    obtain ⟨hne, hbad⟩ := hfail
    simp only [List.nil_append, runBatches, hne, Bool.false_eq_true, if_false]
    rw [insert_rows_open_fail _ _ _ hopen hbad]
    refine ⟨rfl, by simp [sentOf], by simp [batchCalls]⟩
  | cons i l1x ih =>
    have hoki := hok i (List.mem_cons_self _ _)
    simp only [List.cons_append, runBatches]
    by_cases hemp : (validOf cfg o i).isEmpty = true
    · rw [if_pos hemp]
      have hrec := ih
        { st with total_events_rejected :=
            st.total_events_rejected + (rejectedOf cfg o i).length }
        calls hopen (fun j hj => hok j (List.mem_cons_of_mem _ hj))
      have hlen : (validOf cfg o i).length = 0 := by
        rw [List.isEmpty_iff.mp hemp]
        rfl
      refine ⟨hrec.1, ?_, ?_⟩
      · exact hrec.2.1.trans (by simp [sentOf, hlen])
      · refine hrec.2.2.trans ?_
        have hnil : validOf cfg o i = [] := List.isEmpty_iff.mp hemp
        simp [batchCalls, List.filterMap_cons, hnil]
    · have h200 : (o.insResp i).status_code = 200 := by
        by_contra hne2
        exact hoki ⟨Bool.not_eq_true _ ▸ hemp, hne2⟩
      rw [if_neg hemp]
      rw [insert_rows_open_ok _ _ _ hopen h200]
      have hopen2 : isOpen { st.client with continuation_token :=
          match (o.insResp i).next_continuation_token with
          | some tok => some tok
          | none => st.client.continuation_token } := hopen
      have hrec := ih
        { client := { st.client with continuation_token :=
            match (o.insResp i).next_continuation_token with
            | some tok => some tok
            | none => st.client.continuation_token },
          total_events_sent := st.total_events_sent + (validOf cfg o i).length,
          total_events_rejected :=
            st.total_events_rejected + (rejectedOf cfg o i).length }
        (calls ++ [NetCall.insertRows (validOf cfg o i)]) hopen2
        (fun j hj => hok j (List.mem_cons_of_mem _ hj))
      refine ⟨hrec.1, ?_, ?_⟩
      · refine hrec.2.1.trans ?_
        simp only [sentOf, List.map_cons, List.sum_cons]
        omega
      · refine hrec.2.2.trans ?_
        have hne : validOf cfg o i ≠ [] := fun hnil => hemp (by rw [hnil]; rfl)
        simp [batchCalls, List.filterMap_cons, hne, List.append_assoc]


/-- C6: when the channel opens successfully, every append up to batch `k`
succeeds and batch `k`'s append returns a non-200 status (for example 500),
the driver stops with that append failure; `total_events_sent` counts
exactly the valid events of the batches appended successfully before the
failure, the failed batch is not counted, and the trace shows each batch
appended at most once (no retry) and nothing after batch `k`. -/
theorem append_failure_stops_driver (cfg : SimConfig) (o : Oracle)
    (st0 : SimState) (dd : Option ℕ) (rt : Option ℤ) (tok : String)
    (cs : List (String × String)) (k : ℕ)
    (hch : pyFalsy (some cfg.channel_name) = false)
    (hfresh : pyFalsy st0.client.control_host = true)
    (hh200 : o.hostResp.status_code = 200)
    (hhne : o.hostResp.text.isEmpty = false)
    (ho200 : o.openResp.status_code = 200)
    (htok : o.openResp.body.next_continuation_token = some tok)
    (hcs : o.openResp.body.channel_status = some cs)
    (hbs : 0 < cfg.batch_size)
    (hrate : 0 < pyOrInt rt cfg.events_per_second)
    (hk : k < totalBatches (pyOrNat dd cfg.simulation_duration_days * 24 * 3600)
            ((cfg.batch_size : ℚ) / (pyOrInt rt cfg.events_per_second : ℚ)))
    (hpre : ∀ i < k, ¬ failsAt cfg o i)
    (hfail : failsAt cfg o k) :
    (run cfg o st0 dd rt).2.2 =
      some (.clientError (.httpFailure "insert rows" (o.insResp k).status_code)) ∧
    (run cfg o st0 dd rt).1.total_events_sent =
      st0.total_events_sent + sentOf cfg o (List.range k) ∧
    (run cfg o st0 dd rt).2.1 =
      [NetCall.getHostname, NetCall.openChannel cfg.channel_name] ++
        batchCalls cfg o (List.range k) ++ [NetCall.insertRows (validOf cfg o k)] := by
  have hne0 : ¬ pyOrInt rt cfg.events_per_second = 0 := by omega
  have hbipos : (0 : ℚ) <
      (cfg.batch_size : ℚ) / (pyOrInt rt cfg.events_per_second : ℚ) := by
    apply div_pos
    · exact_mod_cast hbs
    · exact_mod_cast hrate
  obtain ⟨l2, hsplit⟩ := range_split k _ hk
  have hopen2 : isOpen { st0.client with
      control_host := some ("https://" ++ pyStrip o.hostResp.text),
      channel_name := some cfg.channel_name,
      ingest_host := some ("https://" ++ pyStrip o.hostResp.text),
      continuation_token := some tok } :=
    ⟨scheme_append_ne_empty _, hch⟩
  have hloop := runBatches_fail_first cfg o (List.range k) k l2
    { st0 with client := { st0.client with
        control_host := some ("https://" ++ pyStrip o.hostResp.text),
        channel_name := some cfg.channel_name,
        ingest_host := some ("https://" ++ pyStrip o.hostResp.text),
        continuation_token := some tok } }
    [NetCall.getHostname, NetCall.openChannel cfg.channel_name]
    hopen2 (fun i hi => hpre i (List.mem_range.mp hi)) hfail
  unfold run
  rw [open_channel_fresh_ok st0.client cfg.channel_name tok cs o.hostResp
    o.openResp hfresh hh200 hhne ho200 htok hcs]
  dsimp only
  rw [if_neg hne0, if_neg (not_le.mpr hbipos), hsplit]
  rcases hrb : runBatches cfg o (List.range k ++ k :: l2)
    { st0 with client := { st0.client with
        control_host := some ("https://" ++ pyStrip o.hostResp.text),
        channel_name := some cfg.channel_name,
        ingest_host := some ("https://" ++ pyStrip o.hostResp.text),
        continuation_token := some tok } }
    [NetCall.getHostname, NetCall.openChannel cfg.channel_name]
    with ⟨st1, calls1, err⟩
  rw [hrb] at hloop
  obtain ⟨he, hsent, htrace⟩ := hloop
  dsimp only at he hsent htrace
  subst he
  exact ⟨rfl, hsent, htrace⟩


/-- The concrete batch count of the witness run: one day at 30000 events per
batch and one event per second gives three batches. -/
theorem totalBatchesEx : totalBatches 86400 ((30000 : ℚ) / ((1 : ℤ) : ℚ)) = 3 := by
  have hq : ((30000 : ℚ) / ((1 : ℤ) : ℚ)) = 30000 := by norm_num
  rw [hq]
  unfold totalBatches
  have hceil : Int.ceil ((86400 : ℚ) / (30000 : ℚ)) = 3 := by
    rw [Int.ceil_eq_iff]
    constructor <;> norm_num
  rw [show (((86400 : ℕ)) : ℚ) = (86400 : ℚ) from by norm_num, hceil]
  rfl

/-- C6 witness: `append_failure_stops_driver` on the concrete run — batch 0
appends two valid events successfully, batch 1's append returns 500, the
driver stops with the append failure and `total_events_sent = 2`. -/
theorem append_failure_stops_driver_witness :
    (run cfgEx oracleEx SimState.init none (some 1)).2.2 =
      some (.clientError (.httpFailure "insert rows" 500)) ∧
    (run cfgEx oracleEx SimState.init none (some 1)).1.total_events_sent = 2 := by
  have h := append_failure_stops_driver cfgEx oracleEx SimState.init none (some 1)
    "tok0" [] 1 (by decide) (by decide) (by decide) (by decide) (by decide)
    rfl rfl (by decide) (by decide)
    (by
      show (1 : ℕ) < totalBatches 86400 ((30000 : ℚ) / ((1 : ℤ) : ℚ))
      rw [totalBatchesEx]
      omega)
    (by decide) (by decide)
  exact ⟨h.1, h.2.1.trans (by decide)⟩

/-- C3 counterexample: with rate `-1` the driver does raise the
invalid-rate error, but only *after* the hostname and channel-open network
calls have been made — the trace already contains the channel-open call;
and a rate of `0` is falsy, so the run is identical to one with the rate
argument omitted (the configured default applies, with no invalid-rate
failure from the argument). -/
theorem run_rate_check_after_network_cex :
    (run cfgEx oracleEx SimState.init none (some (-1))).2.2 = some .invalidRate ∧
    NetCall.openChannel "ch" ∈ (run cfgEx oracleEx SimState.init none (some (-1))).2.1 ∧
    run cfgEx oracleEx SimState.init none (some 0) =
      run cfgEx oracleEx SimState.init none none := by
  refine ⟨?_, ?_, rfl⟩ <;>
    norm_num [run, open_channel, get_control_host, pyFalsy, pyOrInt, pyOrNat,
      cfgEx, oracleEx, SimState.init, ClientState.init] <;>
    decide

/-- C3 (amended): for every rate argument whose effective value is negative,
`run` raises the invalid-rate `ValueError`, but only after the hostname and
channel-open network calls; a rate argument of `0` is falsy under the `or`
defaulting and the run proceeds exactly as if no rate had been passed. -/
theorem run_negative_rate_invalid_after_open (cfg : SimConfig) (o : Oracle)
    (st0 : SimState) (dd : Option ℕ) (rt : ℤ) (tok : String)
    (cs : List (String × String))
    (hfresh : pyFalsy st0.client.control_host = true)
    (hh200 : o.hostResp.status_code = 200)
    (hhne : o.hostResp.text.isEmpty = false)
    (ho200 : o.openResp.status_code = 200)
    (htok : o.openResp.body.next_continuation_token = some tok)
    (hcs : o.openResp.body.channel_status = some cs)
    (hneg : pyOrInt (some rt) cfg.events_per_second < 0) :
    (run cfg o st0 dd (some rt)).2.2 = some .invalidRate ∧
    (run cfg o st0 dd (some rt)).2.1 =
      [NetCall.getHostname, NetCall.openChannel cfg.channel_name] ∧
    (∀ dd2 : Option ℕ, run cfg o st0 dd2 (some 0) = run cfg o st0 dd2 none) := by
  have hne0 : ¬ pyOrInt (some rt) cfg.events_per_second = 0 := by omega
  have hbile : (cfg.batch_size : ℚ) / (pyOrInt (some rt) cfg.events_per_second : ℚ) ≤ 0 := by
    apply div_nonpos_iff.mpr
    left
    constructor
    · positivity
    · exact_mod_cast hneg.le
  unfold run
  rw [open_channel_fresh_ok st0.client cfg.channel_name tok cs o.hostResp
    o.openResp hfresh hh200 hhne ho200 htok hcs]
  dsimp only
  rw [if_neg hne0, if_pos hbile]
  exact ⟨rfl, rfl, fun dd2 => rfl⟩

/-- C3 amended-theorem witness: the negative-rate run at the concrete
configuration fails with the invalid-rate error after exactly the hostname
and channel-open calls. -/
theorem run_negative_rate_invalid_after_open_witness :
    (run cfgEx oracleEx SimState.init none (some (-1))).2.2 = some .invalidRate ∧
    (run cfgEx oracleEx SimState.init none (some (-1))).2.1 =
      [NetCall.getHostname, NetCall.openChannel "ch"] := by
  have h := run_negative_rate_invalid_after_open cfgEx oracleEx SimState.init
    none (-1) "tok0" [] (by decide) (by decide) (by decide) (by decide)
    rfl rfl (by decide)
  exact ⟨h.1, h.2.1⟩

end SimpleStream
